import Mathlib

/-!
Verification development for the Cinema4D/Redshift CLI render front-end
(src/cinema4d/redshift_cli_render.py).

The meaningful logic of the program is shallowly embedded here:

* `RenderConfig` mirrors the Python class `RenderConfig` (its 18 fields, in
  declaration order).  Python strings become `String`, ints become `Int`,
  bools become `Bool`, and the one float field (`duration_seconds`) is
  idealised as an exact rational `ℚ`.
* `build_command` mirrors the Python function `build_command` on the POSIX
  platform (the platform decides the shlex splitting mode and the path-join
  convention).  A Python `raise ValueError(msg)` becomes `Except.error msg`.
  The human-readable display string built on the last line of the Python
  function is not modelled; no property below concerns it.
* `shlexSplitPosix` models the CPython `shlex.split(s, posix=True)` lexer
  (whitespace splitting, single and double quotes, backslash escapes); it
  fails, as the Python lexer does, on an unterminated quote or a trailing
  escape character.
* `posixJoin` models `os.path.join` for two arguments on POSIX.
* `pyRound` models the Python builtin `round` on exact values
  (round half to even).
* `RenderConfig.to_dict` / `RenderConfig.from_dict` mirror the preset
  serialisation: the dict is an association list of dynamically typed
  values, and deserialisation folds the entries over a freshly constructed
  default record, as `cfg.__dict__.update(d)` does.  The environment probe
  `guess_c4d_command()` used by the Python constructor is a parameter.
* `workerTrace` models the worker body of `run_command_async` as the
  sequence of callback invocations (output sink and completion sink) that
  one run performs, as a function of the spawn outcome.
-/

/-- Mirrors the Python class `RenderConfig`: one flat record of render
parameters, fields in the order of `__init__`. -/
structure RenderConfig where
  c4d_cmd : String
  scene_path : String
  output_dir : String
  base_name : String
  format : String
  override_format : Bool
  override_res : Bool
  res_w : Int
  res_h : Int
  use_duration : Bool
  duration_seconds : ℚ
  fps : Int
  start_frame : Int
  end_frame : Int
  renderer : String
  force_renderer : Bool
  threads : Int
  extra_args : String
  deriving DecidableEq, Repr

/-- Mirrors `RenderConfig.__init__`.  The Python constructor initialises
`c4d_cmd` from the environment probe `guess_c4d_command()`; that probe
result is the parameter `g`. -/
def defaultRenderConfig (g : String) : RenderConfig where
  c4d_cmd := g
  scene_path := ""
  output_dir := ""
  base_name := "frame_"
  format := "png"
  override_format := true
  override_res := false
  res_w := 1920
  res_h := 1080
  use_duration := true
  duration_seconds := 15
  fps := 25
  start_frame := 0
  end_frame := 100
  renderer := "Redshift"
  force_renderer := true
  threads := 0
  extra_args := ""

/-- A dynamically typed Python value, as stored in a preset dict. -/
inductive PyVal where
  | str (s : String)
  | int (n : Int)
  | bool (b : Bool)
  | rat (q : ℚ)
  deriving DecidableEq, Repr

/-- Mirrors `RenderConfig.to_dict` (`self.__dict__.copy()`): the full record
as a flat key-value structure, keys in attribute insertion order. -/
def RenderConfig.to_dict (c : RenderConfig) : List (String × PyVal) :=
  [("c4d_cmd", .str c.c4d_cmd),
   ("scene_path", .str c.scene_path),
   ("output_dir", .str c.output_dir),
   ("base_name", .str c.base_name),
   ("format", .str c.format),
   ("override_format", .bool c.override_format),
   ("override_res", .bool c.override_res),
   ("res_w", .int c.res_w),
   ("res_h", .int c.res_h),
   ("use_duration", .bool c.use_duration),
   ("duration_seconds", .rat c.duration_seconds),
   ("fps", .int c.fps),
   ("start_frame", .int c.start_frame),
   ("end_frame", .int c.end_frame),
   ("renderer", .str c.renderer),
   ("force_renderer", .bool c.force_renderer),
   ("threads", .int c.threads),
   ("extra_args", .str c.extra_args)]

/-- One step of `cfg.__dict__.update(d)`: assign one dict entry onto the
record.  A key that names no attribute of the documented type leaves the
record unchanged. -/
def applyPresetEntry (c : RenderConfig) : String × PyVal → RenderConfig
  | ("c4d_cmd", .str v) => { c with c4d_cmd := v }
  | ("scene_path", .str v) => { c with scene_path := v }
  | ("output_dir", .str v) => { c with output_dir := v }
  | ("base_name", .str v) => { c with base_name := v }
  | ("format", .str v) => { c with format := v }
  | ("override_format", .bool v) => { c with override_format := v }
  | ("override_res", .bool v) => { c with override_res := v }
  | ("res_w", .int v) => { c with res_w := v }
  | ("res_h", .int v) => { c with res_h := v }
  | ("use_duration", .bool v) => { c with use_duration := v }
  | ("duration_seconds", .rat v) => { c with duration_seconds := v }
  | ("fps", .int v) => { c with fps := v }
  | ("start_frame", .int v) => { c with start_frame := v }
  | ("end_frame", .int v) => { c with end_frame := v }
  | ("renderer", .str v) => { c with renderer := v }
  | ("force_renderer", .bool v) => { c with force_renderer := v }
  | ("threads", .int v) => { c with threads := v }
  | ("extra_args", .str v) => { c with extra_args := v }
  | _ => c

/-- Mirrors the static method `RenderConfig.from_dict`: build a default
record (whose `c4d_cmd` comes from the environment probe, parameter `g`)
and update it entry by entry from the dict. -/
def RenderConfig.from_dict (g : String) (d : List (String × PyVal)) : RenderConfig :=
  d.foldl applyPresetEntry (defaultRenderConfig g)

/-- Python builtin `round` to an integer on exact values: round half to
even. -/
def pyRound (q : ℚ) : Int :=
  let f := ⌊q⌋
  if q - f < 1/2 then f
  else if 1/2 < q - f then f + 1
  else if f % 2 = 0 then f else f + 1

/-- Models `os.path.join(a, b)` on POSIX: if `b` starts with the separator
it replaces the path; else the parts are joined, inserting a separator
unless `a` is empty or already ends with one.  The two affix tests are
expressed on the character lists. -/
def posixJoin (a b : String) : String :=
  if b.data.head? = some '/' then b
  else if a = "" ∨ a.data.getLast? = some '/' then a ++ b
  else a ++ "/" ++ b

/-- True when `s.strip()` is non-empty in Python, i.e. when some character
of `s` is not Unicode whitespace.  The recognised whitespace covers the
code points Python str.strip removes. -/
def isPyStripWs (c : Char) : Bool :=
  c = ' ' || c = '\t' || c = '\n' || c = '\r' ||
  c = Char.ofNat 0x0b || c = Char.ofNat 0x0c ||
  (0x1c ≤ c.toNat && c.toNat ≤ 0x1f) ||
  c = Char.ofNat 0x85 || c = Char.ofNat 0xa0 || c = Char.ofNat 0x1680 ||
  (0x2000 ≤ c.toNat && c.toNat ≤ 0x200a) ||
  c = Char.ofNat 0x2028 || c = Char.ofNat 0x2029 || c = Char.ofNat 0x202f ||
  c = Char.ofNat 0x205f || c = Char.ofNat 0x3000

/-- Truthiness of `s.strip()` in Python: some character is not whitespace. -/
def stripNonEmpty (s : String) : Bool :=
  s.data.any (fun c => ! isPyStripWs c)

/-- The whitespace characters of the shlex lexer (space, tab, CR, LF). -/
def isShWs (c : Char) : Bool :=
  c = ' ' || c = '\t' || c = '\r' || c = '\n'

/-- The single-quote character. -/
def sqChar : Char := Char.ofNat 39

/-- The double-quote character. -/
def dqChar : Char := '"'

/-- The backslash escape character. -/
def bsChar : Char := '\\'

/-- Lexer mode of the shlex automaton: between tokens, inside a plain word,
inside single quotes, inside double quotes. -/
inductive ShMode where
  | ws
  | word
  | insq
  | indq
  deriving DecidableEq, Repr

/-- The CPython shlex automaton with `posix=True` and whitespace splitting.
Arguments: remaining input, mode, current token (reversed), whether the
current token saw a quote, emitted tokens (reversed). -/
def shlexRun : List Char → ShMode → List Char → Bool → List String → Except String (List String)
  | [], .ws, _, _, out => .ok out.reverse
  | [], .word, tok, quoted, out =>
      if tok.isEmpty && !quoted then .ok out.reverse
      else .ok (String.mk tok.reverse :: out).reverse
  | [], .insq, _, _, _ => .error "No closing quotation"
  | [], .indq, _, _, _ => .error "No closing quotation"
  | c :: rest, .ws, tok, quoted, out =>
      if isShWs c then shlexRun rest .ws tok quoted out
      else if c = sqChar then shlexRun rest .insq tok true out
      else if c = dqChar then shlexRun rest .indq tok true out
      else if c = bsChar then
        match rest with
        | [] => .error "No escaped character"
        | c2 :: rest2 => shlexRun rest2 .word (c2 :: tok) quoted out
      else shlexRun rest .word (c :: tok) quoted out
  | c :: rest, .word, tok, quoted, out =>
      if isShWs c then shlexRun rest .ws [] false (String.mk tok.reverse :: out)
      else if c = sqChar then shlexRun rest .insq tok true out
      else if c = dqChar then shlexRun rest .indq tok true out
      else if c = bsChar then
        match rest with
        | [] => .error "No escaped character"
        | c2 :: rest2 => shlexRun rest2 .word (c2 :: tok) quoted out
      else shlexRun rest .word (c :: tok) quoted out
  | c :: rest, .insq, tok, quoted, out =>
      if c = sqChar then shlexRun rest .word tok quoted out
      else shlexRun rest .insq (c :: tok) quoted out
  | c :: rest, .indq, tok, quoted, out =>
      if c = dqChar then shlexRun rest .word tok quoted out
      else if c = bsChar then
        match rest with
        | [] => .error "No escaped character"
        | c2 :: rest2 =>
            if c2 = bsChar || c2 = dqChar then shlexRun rest2 .indq (c2 :: tok) quoted out
            else shlexRun rest2 .indq (c2 :: bsChar :: tok) quoted out
      else shlexRun rest .indq (c :: tok) quoted out

/-- Models `shlex.split(s, posix=True)`, the splitting mode `build_command`
selects on non-Windows platforms. -/
def shlexSplitPosix (s : String) : Except String (List String) :=
  shlexRun s.data .ws [] false []

/-- The tail shared by both frame-range branches of `build_command`:
append the thread tokens and, when the extra-arguments string is
non-blank, its shlex tokens (source lines 109-115). -/
def emitTail (cmd : List String) (cfg : RenderConfig) : Except String (List String) :=
  let cmd := cmd ++ ["-threads", toString cfg.threads]
  if stripNonEmpty cfg.extra_args then
    match shlexSplitPosix cfg.extra_args with
    | .ok toks => .ok (cmd ++ toks)
    | .error e => .error e
  else .ok cmd

/-- Mirrors the Python function `build_command` (POSIX platform), without
the display string of its final line.  A raised `ValueError` becomes
`Except.error`. -/
def build_command (cfg : RenderConfig) : Except String (List String) :=
  let cmd := if cfg.c4d_cmd ≠ "" then [cfg.c4d_cmd] else []
  let cmd := if cfg.force_renderer ∧ cfg.renderer ≠ "" then cmd ++ ["-renderer", cfg.renderer] else cmd
  if cfg.scene_path = "" then .error "Scene path is required."
  else
    let cmd := cmd ++ ["-render", cfg.scene_path]
    if cfg.output_dir = "" then .error "Output directory is required."
    else
      let base := if cfg.base_name ≠ "" then cfg.base_name else "frame_"
      let cmd := cmd ++ ["-oimage", posixJoin cfg.output_dir base]
      let cmd := if cfg.override_format ∧ cfg.format ≠ "" then cmd ++ ["-ofmt", cfg.format] else cmd
      let cmd := if cfg.override_res then cmd ++ ["-ores", toString cfg.res_w, toString cfg.res_h] else cmd
      if cfg.use_duration then
        emitTail (cmd ++ ["-frame", "0", toString (pyRound (cfg.duration_seconds * (cfg.fps : ℚ)))]) cfg
      else if cfg.end_frame < cfg.start_frame then .error "End frame must be >= start frame."
      else emitTail (cmd ++ ["-frame", toString cfg.start_frame, toString cfg.end_frame]) cfg

/-- Token 0 of the built command: the executable, when set (source line 73). -/
def exeTokens (cfg : RenderConfig) : List String :=
  if cfg.c4d_cmd ≠ "" then [cfg.c4d_cmd] else []

/-- Renderer-selection tokens (source lines 75-76). -/
def rendererTokens (cfg : RenderConfig) : List String :=
  if cfg.force_renderer ∧ cfg.renderer ≠ "" then ["-renderer", cfg.renderer] else []

/-- Render-action tokens (source line 81). -/
def sceneTokens (cfg : RenderConfig) : List String :=
  ["-render", cfg.scene_path]

/-- The output image stem: output directory joined with the base filename,
defaulting to the fixed placeholder when blank (source lines 86-87). -/
def oimageStem (cfg : RenderConfig) : String :=
  posixJoin cfg.output_dir (if cfg.base_name ≠ "" then cfg.base_name else "frame_")

/-- Output-path tokens (source line 88). -/
def outputTokens (cfg : RenderConfig) : List String :=
  ["-oimage", oimageStem cfg]

/-- Format-override tokens (source lines 91-92). -/
def formatTokens (cfg : RenderConfig) : List String :=
  if cfg.override_format ∧ cfg.format ≠ "" then ["-ofmt", cfg.format] else []

/-- Resolution-override tokens (source lines 95-96). -/
def resTokens (cfg : RenderConfig) : List String :=
  if cfg.override_res then ["-ores", toString cfg.res_w, toString cfg.res_h] else []

/-- The computed total frame count in duration mode (source line 100). -/
def totalFrames (cfg : RenderConfig) : Int :=
  pyRound (cfg.duration_seconds * (cfg.fps : ℚ))

/-- Frame-range tokens (source lines 99-107), for a valid frame range. -/
def frameTokens (cfg : RenderConfig) : List String :=
  if cfg.use_duration then ["-frame", "0", toString (totalFrames cfg)]
  else ["-frame", toString cfg.start_frame, toString cfg.end_frame]

/-- Thread-count tokens (source line 110). -/
def threadTokens (cfg : RenderConfig) : List String :=
  ["-threads", toString cfg.threads]

/-- The appended extra-argument tokens (source lines 113-115), when the
extra-arguments string is blank or splits successfully. -/
def extraTokens (cfg : RenderConfig) : List String :=
  if stripNonEmpty cfg.extra_args then (shlexSplitPosix cfg.extra_args).toOption.getD []
  else []

/-- Outcome of the process spawn attempted by the worker of
`run_command_async`: the named exception caught on source line 139, any
other spawn exception (line 143), or a started process together with the
lines of its merged output stream and its exit code. -/
inductive SpawnResult where
  | fileNotFound
  | spawnError (msg : String)
  | started (lines : List String) (exitCode : Int)

/-- One callback invocation performed by the worker: a line handed to the
output sink, or a code handed to the completion sink. -/
inductive CallbackEvent where
  | output (text : String)
  | done (code : Int)
  deriving DecidableEq, Repr

/-- Mirrors the worker body of `run_command_async` (source lines 129-153)
as the sequence of callback invocations of one run. -/
def workerTrace : SpawnResult → List CallbackEvent
  | .fileNotFound => [.output "ERROR: Commandline executable not found.\n", .done 1]
  | .spawnError e => [.output ("ERROR: " ++ e ++ "\n"), .done 1]
  | .started lines code => lines.map .output ++ [.done code]

/-- The lines the worker hands to the output sink. -/
def workerOutputs : SpawnResult → List String
  | .fileNotFound => ["ERROR: Commandline executable not found.\n"]
  | .spawnError e => ["ERROR: " ++ e ++ "\n"]
  | .started lines _ => lines

/-- The code the worker hands to the completion sink. -/
def workerExitCode : SpawnResult → Int
  | .fileNotFound => 1
  | .spawnError _ => 1
  | .started _ code => code

/-- Recognises a completion-sink invocation. -/
def isDoneEvent : CallbackEvent → Bool
  | .done _ => true
  | .output _ => false

/-- Concrete accepted configuration: executable set, scene and output set,
remaining fields at constructor defaults. -/
def cfgW1 : RenderConfig :=
  { defaultRenderConfig "/exe" with scene_path := "/s.c4d", output_dir := "/out" }

/-- Concrete duration-mode configuration whose stored explicit frame fields
hold junk (end before start), which duration mode must ignore. -/
def cfgDurW : RenderConfig :=
  { defaultRenderConfig "/exe" with
    scene_path := "/d.c4d"
    output_dir := "/o"
    start_frame := 7
    end_frame := 3 }

/-- Duration-mode configuration with non-empty scene and output whose
extra-arguments string is a lone double-quote character. -/
def cfgDurBad : RenderConfig :=
  { defaultRenderConfig "" with
    scene_path := "/s.c4d"
    output_dir := "/out"
    extra_args := "\"" }

/-- Concrete explicit-frame-range configuration with a valid range. -/
def cfgExpl : RenderConfig :=
  { defaultRenderConfig "/exe" with
    scene_path := "/e.c4d"
    output_dir := "/out"
    use_duration := false
    start_frame := 2
    end_frame := 5 }

/-- Explicit-frame-range configuration with a valid range whose
extra-arguments string is a lone double-quote character. -/
def cfgExplBad : RenderConfig :=
  { defaultRenderConfig "/exe" with
    scene_path := "/e.c4d"
    output_dir := "/out"
    use_duration := false
    start_frame := 2
    end_frame := 5
    extra_args := "\"" }

/-- The example configuration of the specification: scene /s.c4d, output
directory /out, base f_, format override exr, duration 2 s at 25 fps,
threads 0; remaining fields at constructor defaults with the probed
executable g. -/
def cfgExample (g : String) : RenderConfig :=
  { defaultRenderConfig g with
    scene_path := "/s.c4d"
    output_dir := "/out"
    base_name := "f_"
    override_format := true
    format := "exr"
    use_duration := true
    duration_seconds := 2
    fps := 25
    threads := 0 }

/-- Concrete accepted configuration carrying the documented example
extra-arguments string. -/
def cfgExtra : RenderConfig :=
  { defaultRenderConfig "/exe" with
    scene_path := "/s.c4d"
    output_dir := "/out"
    extra_args := "--foo \"bar baz\"" }

/-- Concrete accepted configuration with an empty executable path. -/
def cfgNoExe : RenderConfig :=
  { defaultRenderConfig "" with scene_path := "/a.c4d", output_dir := "/o" }

/-- Configuration with an empty executable path, valid scene, output and
frame range, whose extra-arguments string is a lone double-quote
character. -/
def cfgNoExeBad : RenderConfig :=
  { defaultRenderConfig "" with
    scene_path := "/a.c4d"
    output_dir := "/o"
    extra_args := "\"" }

theorem emitTail_ok (cmd : List String) (cfg : RenderConfig)
    (hx : stripNonEmpty cfg.extra_args = false ∨ ∃ ts, shlexSplitPosix cfg.extra_args = .ok ts) :
    emitTail cmd cfg = .ok (cmd ++ threadTokens cfg ++ extraTokens cfg) := by
  rcases hx with hx | ⟨ts, hx⟩
  · simp [emitTail, threadTokens, extraTokens, hx]
  · by_cases hb : stripNonEmpty cfg.extra_args
    · simp [emitTail, threadTokens, extraTokens, hb, hx, Except.toOption]
    · simp [emitTail, threadTokens, extraTokens, hb]

theorem ite_append_absorb (P : Prop) [Decidable P] (a b : List String) :
    (if P then a ++ b else a) = a ++ (if P then b else []) := by
  split_ifs <;> simp

theorem build_command_segments (cfg : RenderConfig)
    (hs : cfg.scene_path ≠ "") (ho : cfg.output_dir ≠ "")
    (hf : cfg.use_duration = true ∨ ¬ cfg.end_frame < cfg.start_frame) :
    build_command cfg =
      emitTail (exeTokens cfg ++ rendererTokens cfg ++ sceneTokens cfg ++ outputTokens cfg ++
        formatTokens cfg ++ resTokens cfg ++ frameTokens cfg) cfg := by
  by_cases hud : cfg.use_duration = true
  · simp only [build_command, ite_append_absorb]
    rw [if_neg hs, if_neg ho, if_pos hud]
    congr 1
    simp [exeTokens, rendererTokens, sceneTokens, outputTokens, oimageStem, formatTokens,
      resTokens, frameTokens, totalFrames, hud, List.append_assoc]
  · have hend : ¬ cfg.end_frame < cfg.start_frame := by
      rcases hf with hf | hf
      · exact absurd hf hud
      · exact hf
    simp only [build_command, ite_append_absorb]
    rw [if_neg hs, if_neg ho, if_neg hud, if_neg hend]
    congr 1
    simp [exeTokens, rendererTokens, sceneTokens, outputTokens, oimageStem, formatTokens,
      resTokens, frameTokens, totalFrames, hud, List.append_assoc]

theorem build_command_ok_eq (cfg : RenderConfig)
    (hs : cfg.scene_path ≠ "") (ho : cfg.output_dir ≠ "")
    (hf : cfg.use_duration = true ∨ ¬ cfg.end_frame < cfg.start_frame)
    (hx : stripNonEmpty cfg.extra_args = false ∨ ∃ ts, shlexSplitPosix cfg.extra_args = .ok ts) :
    build_command cfg = .ok (exeTokens cfg ++ rendererTokens cfg ++ sceneTokens cfg ++
      outputTokens cfg ++ formatTokens cfg ++ resTokens cfg ++ frameTokens cfg ++
      threadTokens cfg ++ extraTokens cfg) := by
  rw [build_command_segments cfg hs ho hf, emitTail_ok _ _ hx]

theorem build_command_ok_inv (cfg : RenderConfig) (toks : List String)
    (h : build_command cfg = .ok toks) :
    cfg.scene_path ≠ "" ∧ cfg.output_dir ≠ "" ∧
      (cfg.use_duration = true ∨ ¬ cfg.end_frame < cfg.start_frame) ∧
      (stripNonEmpty cfg.extra_args = false ∨ ∃ ts, shlexSplitPosix cfg.extra_args = .ok ts) := by
  by_cases hs : cfg.scene_path = ""
  · simp [build_command, hs] at h
  · by_cases ho : cfg.output_dir = ""
    · simp [build_command, hs, ho] at h
    · refine ⟨hs, ho, ?_, ?_⟩
      · by_cases hud : cfg.use_duration = true
        · exact .inl hud
        · right
          intro hlt
          simp [build_command, hs, ho, hud, hlt] at h
      · by_cases hb : stripNonEmpty cfg.extra_args
        · cases hsp : shlexSplitPosix cfg.extra_args with
          | ok ts => exact .inr ⟨ts, rfl⟩
          | error e =>
            exfalso
            by_cases hud : cfg.use_duration = true
            · simp [build_command, emitTail, hs, ho, hud, hb, hsp] at h
            · by_cases hlt : cfg.end_frame < cfg.start_frame
              · simp [build_command, hs, ho, hud, hlt] at h
              · simp [build_command, emitTail, hs, ho, hud, hlt, hb, hsp] at h
        · exact .inl (by simpa using hb)

/-- C1: every token list that build_command accepts and returns is exactly
the fixed-order concatenation: optional executable token, renderer flag and
name (when force-renderer is set and a renderer name is set), render flag
and scene path, output-path flag and stem, format flag and format (when
overridden and set), resolution flag with width and height (when
overridden), frame-range flag with its two values, thread flag and count,
then the tokenized extra arguments. -/
theorem c1_token_order (cfg : RenderConfig) (toks : List String)
    (h : build_command cfg = .ok toks) :
    toks = exeTokens cfg ++ rendererTokens cfg ++ sceneTokens cfg ++ outputTokens cfg ++
      formatTokens cfg ++ resTokens cfg ++ frameTokens cfg ++ threadTokens cfg ++
      extraTokens cfg := by
  obtain ⟨hs, ho, hf, hx⟩ := build_command_ok_inv cfg toks h
  exact Except.ok.inj (h.symm.trans (build_command_ok_eq cfg hs ho hf hx))

theorem pyRound_intCast (n : ℤ) : pyRound ((n : ℤ) : ℚ) = n := by
  unfold pyRound
  norm_num

theorem frameTokens_cfgW1 : frameTokens cfgW1 = ["-frame", "0", "375"] := by
  have h1 : frameTokens cfgW1 =
      ["-frame", "0", toString (pyRound ((15 : ℚ) * ((25 : ℤ) : ℚ)))] := rfl
  have h2 : (15 : ℚ) * ((25 : ℤ) : ℚ) = ((375 : ℤ) : ℚ) := by norm_num
  rw [h1, h2, pyRound_intCast]
  rfl

theorem build_cfgW1 : build_command cfgW1 =
    .ok ["/exe", "-renderer", "Redshift", "-render", "/s.c4d", "-oimage", "/out/frame_",
      "-ofmt", "png", "-frame", "0", "375", "-threads", "0"] := by
  rw [build_command_ok_eq cfgW1 (by decide) (by decide) (Or.inl rfl) (Or.inl rfl),
    frameTokens_cfgW1]
  rfl

/-- C1 witness: the order theorem applied to a concrete accepted
configuration. -/
theorem c1_token_order_witness :
    ["/exe", "-renderer", "Redshift", "-render", "/s.c4d", "-oimage", "/out/frame_",
      "-ofmt", "png", "-frame", "0", "375", "-threads", "0"] =
      exeTokens cfgW1 ++ rendererTokens cfgW1 ++ sceneTokens cfgW1 ++ outputTokens cfgW1 ++
      formatTokens cfgW1 ++ resTokens cfgW1 ++ frameTokens cfgW1 ++ threadTokens cfgW1 ++
      extraTokens cfgW1 :=
  c1_token_order cfgW1 _ build_cfgW1

/-- C4: with an empty scene path or an empty output directory,
build_command fails with a validation error; no token list is produced. -/
theorem c4_missing_paths (cfg : RenderConfig)
    (h : cfg.scene_path = "" ∨ cfg.output_dir = "") :
    ∃ e, build_command cfg = .error e := by
  rcases h with h | h
  · exact ⟨"Scene path is required.", by simp [build_command, h]⟩
  · by_cases hs : cfg.scene_path = ""
    · exact ⟨"Scene path is required.", by simp [build_command, hs]⟩
    · exact ⟨"Output directory is required.", by simp [build_command, hs, h]⟩

/-- C4 witness: the default configuration has an empty scene path, and
build_command rejects it. -/
theorem c4_missing_paths_witness :
    ((defaultRenderConfig "").scene_path = "" ∨ (defaultRenderConfig "").output_dir = "") ∧
      ∃ e, build_command (defaultRenderConfig "") = .error e :=
  ⟨Or.inl rfl, c4_missing_paths (defaultRenderConfig "") (Or.inl rfl)⟩

/-- C10: when both the scene path and the output directory are empty,
build_command raises the scene-path validation error, not the
output-directory one: the scene-path check runs first. -/
theorem c10_scene_error_first (cfg : RenderConfig)
    (hs : cfg.scene_path = "") (ho : cfg.output_dir = "") :
    build_command cfg = .error "Scene path is required." := by
  simp [build_command, hs]

/-- C10 witness: the default configuration has both paths empty and gets
the scene-path error. -/
theorem c10_scene_error_first_witness :
    build_command (defaultRenderConfig "") = .error "Scene path is required." :=
  c10_scene_error_first (defaultRenderConfig "") rfl rfl

/-- C5: serialising any Configuration Model to preset form and
deserialising that form back (under any environment-probed default
executable path g) yields a record equal to the original in every field. -/
theorem c5_preset_round_trip (g : String) (cfg : RenderConfig) :
    RenderConfig.from_dict g (RenderConfig.to_dict cfg) = cfg := by
  cases cfg
  rfl

/-- C9: for every run of the worker, the completion sink is invoked exactly
once, as the last callback: on a failed spawn the output sink gets exactly
one synthetic error line and the completion sink then gets code 1; on
normal termination every output line is forwarded in order before the
completion sink gets the real exit code. -/
theorem c9_runner_callbacks (r : SpawnResult) :
    workerTrace r = (workerOutputs r).map CallbackEvent.output ++
        [CallbackEvent.done (workerExitCode r)] ∧
      (workerTrace r).filter isDoneEvent = [CallbackEvent.done (workerExitCode r)] ∧
      (workerTrace r).getLast? = some (CallbackEvent.done (workerExitCode r)) ∧
      workerOutputs SpawnResult.fileNotFound = ["ERROR: Commandline executable not found.\n"] ∧
      workerExitCode SpawnResult.fileNotFound = 1 ∧
      ∀ lines code, workerOutputs (SpawnResult.started lines code) = lines ∧
        workerExitCode (SpawnResult.started lines code) = code := by
  refine ⟨?_, ?_, ?_, rfl, rfl, fun lines code => ⟨rfl, rfl⟩⟩
  · cases r <;> rfl
  · cases r <;>
      simp [workerTrace, workerOutputs, workerExitCode, isDoneEvent, List.filter_append,
        List.filter_map, Function.comp]
  · cases r <;> simp [workerTrace, workerOutputs, workerExitCode]

/-- C2 counterexample: a duration-mode configuration with non-empty scene
path and output directory on which build_command nevertheless fails,
because its extra-arguments string has an unterminated quote. -/
theorem c2_counterexample :
    cfgDurBad.use_duration = true ∧ cfgDurBad.scene_path ≠ "" ∧ cfgDurBad.output_dir ≠ "" ∧
      build_command cfgDurBad = .error "No closing quotation" :=
  ⟨rfl, by decide, by decide, rfl⟩

/-- C2 (amended): for every Configuration Model with use-duration true,
non-empty scene path and output directory, and an extra-arguments string
that is blank or splits successfully under shell rules, build_command
succeeds, its frame-range tokens are the flag followed by 0 and
round(duration_seconds × fps), and the stored explicit start/end frame
fields never influence the result. -/
theorem c2_duration_mode (cfg : RenderConfig)
    (hud : cfg.use_duration = true)
    (hs : cfg.scene_path ≠ "") (ho : cfg.output_dir ≠ "")
    (hx : stripNonEmpty cfg.extra_args = false ∨ ∃ ts, shlexSplitPosix cfg.extra_args = .ok ts) :
    build_command cfg = .ok (exeTokens cfg ++ rendererTokens cfg ++ sceneTokens cfg ++
        outputTokens cfg ++ formatTokens cfg ++ resTokens cfg ++
        ["-frame", "0", toString (pyRound (cfg.duration_seconds * (cfg.fps : ℚ)))] ++
        threadTokens cfg ++ extraTokens cfg) ∧
      ∀ s e, build_command { cfg with start_frame := s, end_frame := e } = build_command cfg := by
  have hfr : frameTokens cfg =
      ["-frame", "0", toString (pyRound (cfg.duration_seconds * (cfg.fps : ℚ)))] := by
    simp [frameTokens, totalFrames, hud]
  constructor
  · rw [build_command_ok_eq cfg hs ho (Or.inl hud) hx, hfr]
  · intro s e
    have h2 := build_command_ok_eq { cfg with start_frame := s, end_frame := e } hs ho
      (Or.inl hud) hx
    rw [h2, build_command_ok_eq cfg hs ho (Or.inl hud) hx]
    have hfr2 : frameTokens { cfg with start_frame := s, end_frame := e } = frameTokens cfg := by
      simp [frameTokens, totalFrames, hud]
    rw [hfr2]
    rfl

/-- C2 witness: the amended duration-mode theorem applied to a concrete
configuration whose stored explicit frame fields hold junk. -/
theorem c2_duration_mode_witness :
    build_command cfgDurW = .ok (exeTokens cfgDurW ++ rendererTokens cfgDurW ++
      sceneTokens cfgDurW ++ outputTokens cfgDurW ++ formatTokens cfgDurW ++
      resTokens cfgDurW ++
      ["-frame", "0", toString (pyRound (cfgDurW.duration_seconds * (cfgDurW.fps : ℚ)))] ++
      threadTokens cfgDurW ++ extraTokens cfgDurW) :=
  (c2_duration_mode cfgDurW rfl (by decide) (by decide) (Or.inl rfl)).1

/-- C3 counterexample: an explicit-range configuration with end ≥ start,
non-empty scene path and output directory, on which build_command fails
rather than succeeding, because its extra-arguments string has an
unterminated quote. -/
theorem c3_counterexample :
    cfgExplBad.use_duration = false ∧ cfgExplBad.scene_path ≠ "" ∧
      cfgExplBad.output_dir ≠ "" ∧ cfgExplBad.start_frame ≤ cfgExplBad.end_frame ∧
      build_command cfgExplBad = .error "No closing quotation" :=
  ⟨rfl, by decide, by decide, by decide, rfl⟩

/-- C3 (amended): with use-duration false and non-empty scene path and
output directory: if end frame < start frame, build_command fails with the
frame-range validation error and no token list; if end ≥ start and the
extra-arguments string is blank or splits successfully under shell rules,
it succeeds and its frame-range tokens are exactly the flag, the start
frame and the end frame. -/
theorem c3_explicit_range (cfg : RenderConfig)
    (hud : cfg.use_duration = false)
    (hs : cfg.scene_path ≠ "") (ho : cfg.output_dir ≠ "") :
    (cfg.end_frame < cfg.start_frame →
      build_command cfg = .error "End frame must be >= start frame.") ∧
    (¬ cfg.end_frame < cfg.start_frame →
      (stripNonEmpty cfg.extra_args = false ∨ ∃ ts, shlexSplitPosix cfg.extra_args = .ok ts) →
      build_command cfg = .ok (exeTokens cfg ++ rendererTokens cfg ++ sceneTokens cfg ++
        outputTokens cfg ++ formatTokens cfg ++ resTokens cfg ++
        ["-frame", toString cfg.start_frame, toString cfg.end_frame] ++
        threadTokens cfg ++ extraTokens cfg)) := by
  have hudp : ¬ cfg.use_duration = true := by simp [hud]
  constructor
  · intro hlt
    simp [build_command, hs, ho, hudp, hlt]
  · intro hge hx
    have hfr : frameTokens cfg =
        ["-frame", toString cfg.start_frame, toString cfg.end_frame] := by
      simp [frameTokens, hud]
    rw [build_command_ok_eq cfg hs ho (Or.inr hge) hx, hfr]

/-- C3 witness: the amended explicit-range theorem applied to a concrete
valid-range configuration. -/
theorem c3_explicit_range_witness :
    build_command cfgExpl = .ok (exeTokens cfgExpl ++ rendererTokens cfgExpl ++
      sceneTokens cfgExpl ++ outputTokens cfgExpl ++ formatTokens cfgExpl ++
      resTokens cfgExpl ++
      ["-frame", toString cfgExpl.start_frame, toString cfgExpl.end_frame] ++
      threadTokens cfgExpl ++ extraTokens cfgExpl) :=
  (c3_explicit_range cfgExpl rfl (by decide) (by decide)).2 (by decide) (Or.inl rfl)

theorem infix_append_left {α : Type} (xs l p : List α) (h : p <:+: l) : p <:+: xs ++ l :=
  h.trans (List.suffix_append xs l).isInfix

/-- C6: on the documented example configuration (under any probed
executable path g), build_command succeeds and its token list contains the
frame-range value tokens 0 and 50, the output-path flag followed by the
stem /out/f_, and the consecutive token pair -ofmt exr. -/
theorem c6_example (g : String) :
    ∃ toks, build_command (cfgExample g) = .ok toks ∧
      ["-frame", "0", "50"] <:+: toks ∧
      ["-oimage", "/out/f_"] <:+: toks ∧
      ["-ofmt", "exr"] <:+: toks := by
  have hfr : frameTokens (cfgExample g) = ["-frame", "0", "50"] := by
    have h1 : frameTokens (cfgExample g) =
        ["-frame", "0", toString (pyRound ((2 : ℚ) * ((25 : ℤ) : ℚ)))] := rfl
    have h2 : (2 : ℚ) * ((25 : ℤ) : ℚ) = ((50 : ℤ) : ℚ) := by norm_num
    rw [h1, h2, pyRound_intCast]
    rfl
  have h := build_command_ok_eq (cfgExample g)
    (show ("/s.c4d" : String) ≠ "" by decide) (show ("/out" : String) ≠ "" by decide)
    (Or.inl rfl) (Or.inl rfl)
  rw [hfr] at h
  simp only [List.append_assoc] at h
  have htail : rendererTokens (cfgExample g) ++ (sceneTokens (cfgExample g) ++
      (outputTokens (cfgExample g) ++ (formatTokens (cfgExample g) ++ (resTokens (cfgExample g) ++
      (["-frame", "0", "50"] ++ (threadTokens (cfgExample g) ++ extraTokens (cfgExample g))))))) =
      ["-renderer", "Redshift", "-render", "/s.c4d", "-oimage", "/out/f_", "-ofmt", "exr",
        "-frame", "0", "50", "-threads", "0"] := rfl
  rw [htail] at h
  exact ⟨_, h, infix_append_left _ _ _ (by decide), infix_append_left _ _ _ (by decide),
    infix_append_left _ _ _ (by decide)⟩

/-- C7: on every accepted build, a non-blank extra-arguments string
contributes exactly its POSIX shell-split tokens, appended verbatim as the
final tokens after the command the build yields with a blank string; a
blank or whitespace-only extra-arguments string appends nothing; and the
documented example string splits into exactly the two tokens --foo and
bar baz. -/
theorem c7_extra_args (cfg : RenderConfig) (toks : List String)
    (h : build_command cfg = .ok toks) :
    (stripNonEmpty cfg.extra_args = true →
      ∃ pre ts, shlexSplitPosix cfg.extra_args = .ok ts ∧
        build_command { cfg with extra_args := "" } = .ok pre ∧ toks = pre ++ ts) ∧
    (stripNonEmpty cfg.extra_args = false →
      build_command { cfg with extra_args := "" } = .ok toks) ∧
    shlexSplitPosix "--foo \"bar baz\"" = .ok ["--foo", "bar baz"] := by
  obtain ⟨hs, ho, hf, hx⟩ := build_command_ok_inv cfg toks h
  have heq := build_command_ok_eq cfg hs ho hf hx
  have htoks := Except.ok.inj (h.symm.trans heq)
  have heq0 := build_command_ok_eq { cfg with extra_args := "" } hs ho hf (Or.inl rfl)
  have hx0 : extraTokens { cfg with extra_args := "" } = [] := rfl
  refine ⟨?_, ?_, rfl⟩
  · intro hb
    rcases hx with hx | ⟨ts, hts⟩
    · rw [hx] at hb
      exact Bool.noConfusion hb
    · have hxt : extraTokens cfg = ts := by simp [extraTokens, hb, hts, Except.toOption]
      refine ⟨_, ts, hts, heq0, ?_⟩
      rw [htoks, hxt, hx0, List.append_nil]
      rfl
  · intro hb
    have hxt : extraTokens cfg = [] := by simp [extraTokens, hb]
    rw [heq0, htoks, hxt, hx0]
    rfl

/-- C7 witness: the extra-arguments theorem applied to a concrete accepted
configuration carrying the documented example string. -/
theorem c7_extra_args_witness :
    ∃ pre ts, shlexSplitPosix cfgExtra.extra_args = .ok ts ∧
      build_command { cfgExtra with extra_args := "" } = .ok pre ∧
      exeTokens cfgExtra ++ rendererTokens cfgExtra ++ sceneTokens cfgExtra ++
        outputTokens cfgExtra ++ formatTokens cfgExtra ++ resTokens cfgExtra ++
        frameTokens cfgExtra ++ threadTokens cfgExtra ++ extraTokens cfgExtra = pre ++ ts :=
  (c7_extra_args cfgExtra _
    (build_command_ok_eq cfgExtra (by decide) (by decide) (Or.inl rfl)
      (Or.inr ⟨["--foo", "bar baz"], rfl⟩))).1 rfl

/-- C8 counterexample: a configuration with an empty executable path,
non-empty scene path and output directory and a valid frame range on which
build_command nevertheless fails, because its extra-arguments string has
an unterminated quote. -/
theorem c8_counterexample :
    cfgNoExeBad.c4d_cmd = "" ∧ cfgNoExeBad.scene_path ≠ "" ∧ cfgNoExeBad.output_dir ≠ "" ∧
      cfgNoExeBad.use_duration = true ∧
      build_command cfgNoExeBad = .error "No closing quotation" :=
  ⟨rfl, by decide, by decide, rfl, rfl⟩

/-- C8 (amended): with an empty executable path, non-empty scene path and
output directory, a valid frame range, and an extra-arguments string that
is blank or splits successfully under shell rules, build_command still
succeeds, the token list omits the leading executable token, and its first
token is a flag (the renderer flag or the render flag, each starting with
a dash). -/
theorem c8_no_executable (cfg : RenderConfig)
    (hexe : cfg.c4d_cmd = "")
    (hs : cfg.scene_path ≠ "") (ho : cfg.output_dir ≠ "")
    (hf : cfg.use_duration = true ∨ ¬ cfg.end_frame < cfg.start_frame)
    (hx : stripNonEmpty cfg.extra_args = false ∨ ∃ ts, shlexSplitPosix cfg.extra_args = .ok ts) :
    build_command cfg = .ok (rendererTokens cfg ++ sceneTokens cfg ++ outputTokens cfg ++
        formatTokens cfg ++ resTokens cfg ++ frameTokens cfg ++ threadTokens cfg ++
        extraTokens cfg) ∧
      ∀ toks, build_command cfg = .ok toks →
        toks.head? = some (if cfg.force_renderer ∧ cfg.renderer ≠ "" then "-renderer"
          else "-render") ∧
        ∀ t, toks.head? = some t → t.data.head? = some ('-' : Char) := by
  have hexl : exeTokens cfg = [] := by simp [exeTokens, hexe]
  have h := build_command_ok_eq cfg hs ho hf hx
  rw [hexl, List.nil_append] at h
  refine ⟨h, ?_⟩
  intro toks htoks
  have he : toks = rendererTokens cfg ++ sceneTokens cfg ++ outputTokens cfg ++
      formatTokens cfg ++ resTokens cfg ++ frameTokens cfg ++ threadTokens cfg ++
      extraTokens cfg :=
    Except.ok.inj (htoks.symm.trans h)
  by_cases hr : cfg.force_renderer = true ∧ cfg.renderer ≠ ""
  · have hh : toks.head? = some "-renderer" := by
      rw [he]
      simp [rendererTokens, hr, List.append_assoc]
    refine ⟨by rw [hh]; simp [hr], ?_⟩
    intro t ht
    rw [hh] at ht
    rcases Option.some.inj ht with rfl
    rfl
  · have hh : toks.head? = some "-render" := by
      rw [he]
      simp [rendererTokens, sceneTokens, hr, List.append_assoc]
    refine ⟨by rw [hh]; simp [hr], ?_⟩
    intro t ht
    rw [hh] at ht
    rcases Option.some.inj ht with rfl
    rfl

/-- C8 witness: the amended theorem applied to a concrete configuration
with an empty executable path. -/
theorem c8_no_executable_witness :
    build_command cfgNoExe = .ok (rendererTokens cfgNoExe ++ sceneTokens cfgNoExe ++
      outputTokens cfgNoExe ++ formatTokens cfgNoExe ++ resTokens cfgNoExe ++
      frameTokens cfgNoExe ++ threadTokens cfgNoExe ++ extraTokens cfgNoExe) :=
  (c8_no_executable cfgNoExe rfl (by decide) (by decide) (Or.inl rfl) (Or.inl rfl)).1
